import Mathlib

/-!
Verification development for the Green-API message bridge
(`src/app.py`, `src/config.py`).

The embedding is shallow: Python dicts holding gateway notification
payloads become structures whose fields are the exact dictionary lookups
the code performs (`Option String` for a `.get` that may yield `None`;
an absent value also stands for an empty/"falsy" value where the code
only tests truthiness).  `json.dumps` of a sub-dictionary is abstracted
as a `serialized : String` field carried alongside the extracted
lookups, since the code only ever passes the whole sub-dictionary to
`json.dumps` inside `summarize_payload`.  Network effects are modelled
by an oracle (`Gateway`) giving the outcome of each HTTP call the drain
loop performs, and the SQLAlchemy session by an explicit list of
committed rows, appended in commit order.
-/

/-- Python truthiness of an optional string: `None` and `""` are falsy.
Used wherever the source writes `if x:` / `if not x:` on such a value. -/
def pyTruthy : Option String → Bool
  | none => false
  | some s => !s.isEmpty

/-- Models `text = d.get(k); if text: return text` gates: keeps the value
only when it is truthy. -/
def pyTruthyText : Option String → Option String
  | some t => if t.isEmpty then none else some t
  | none => none

/-- Models Python `x or default` on an optional string (`type_message or
"evento"`, `caption or "[...]"`): the value when truthy, else the default. -/
def pyOrDefault (x : Option String) (d : String) : String :=
  match x with
  | some s => if s.isEmpty then d else s
  | none => d

/-- The `messageData` section of a notification body, as the fields
`extract_message_text` (src/app.py lines 91-127) reads from it.
`some md` stands for a present, non-empty (truthy) dictionary; each
field is the corresponding nested `.get`, `none` when missing.
`serialized` abstracts `json.dumps(message_data, ensure_ascii=False)`. -/
structure MessageData where
  typeMessage : Option String
  textMessage : Option String
  extendedTextMessage : Option String
  imageCaption : Option String
  videoCaption : Option String
  documentFileName : Option String
  serialized : String
deriving DecidableEq

/-- A notification body as read by `extract_message_text`,
`determine_direction`, the drain loop and the webhook handler.
`messageData = none` models `body.get("messageData") or {}` yielding a
falsy dictionary; `statusData = some s` models a truthy `statusData`
dictionary whose `json.dumps` is `s`. -/
structure Body where
  typeWebhook : Option String
  senderChatId : Option String
  messageData : Option MessageData
  statusData : Option String
deriving DecidableEq

/-- `summarize_payload` (src/app.py lines 81-88), with the payload given
by its JSON serialization (the code's `json.dumps(data,
ensure_ascii=False)`): truncate to 700 characters plus `"..."` when
longer than 700, then prefix the bracketed type hint. -/
def summarize_payload (serialized : String) (type_hint : String) : String :=
  "[" ++ type_hint ++ "] "
    ++ (if 700 < serialized.length then serialized.take 700 ++ "..." else serialized)

/-- The `if message_data:` fall-through of `extract_message_text`
(src/app.py lines 120-121): summarize the message section under its type
tag, or `"evento"` when the tag is falsy. -/
def fallbackSummary (md : MessageData) : String :=
  summarize_payload md.serialized (pyOrDefault md.typeMessage "evento")

/-- `extract_message_text` (src/app.py lines 91-127): dispatch on
`messageData.typeMessage`; text branches fall through to the
`if message_data:` summary when the text field is falsy; with no truthy
`messageData`, summarize a truthy `statusData`; otherwise `None`. -/
def extract_message_text (body : Body) : Option String :=
  match body.messageData with
  | some md =>
    if md.typeMessage = some "textMessage" then
      match pyTruthyText md.textMessage with
      | some t => some t
      | none => some (fallbackSummary md)
    else if md.typeMessage = some "extendedTextMessage" then
      match pyTruthyText md.extendedTextMessage with
      | some t => some t
      | none => some (fallbackSummary md)
    else if md.typeMessage = some "imageMessage" then
      some (pyOrDefault md.imageCaption "[Imagen recibida]")
    else if md.typeMessage = some "videoMessage" then
      some (pyOrDefault md.videoCaption "[Video recibido]")
    else if md.typeMessage = some "audioMessage" then
      some "[Audio recibido]"
    else if md.typeMessage = some "stickerMessage" then
      some "[Sticker recibido]"
    else if md.typeMessage = some "documentMessage" then
      some ("[Documento recibido: " ++ pyOrDefault md.documentFileName "sin nombre" ++ "]")
    else
      some (fallbackSummary md)
  | none =>
    match body.statusData with
    | some sd => some (summarize_payload sd "status")
    | none => none

/-- `determine_direction` (src/app.py lines 130-136). -/
def determine_direction (body : Body) : String :=
  if body.typeWebhook = some "incomingMessageReceived" then "incoming"
  else if body.typeWebhook = some "outgoingMessageReceived"
      ∨ body.typeWebhook = some "outgoingAPIMessageReceived" then "outgoing"
  else "service"

/-- The three configuration values `green_api_request` reads
(src/app.py lines 45-47); `none` models a missing key (`app.config.get`
returning `None`). -/
structure AppConfig where
  GREEN_INSTANCE_ID : Option String
  GREEN_API_TOKEN : Option String
  GREEN_API_URL : Option String
deriving DecidableEq

/-- Models a Python f-string interpolation of a possibly-`None` value:
`f"{x}"` renders `None` as the literal string `"None"`. -/
def pyFormat : Option String → String
  | none => "None"
  | some s => s

/-- Outcome of the configuration phase of `green_api_request`: either
the `RuntimeError` raised before any network activity, or the URL with
which the network request proceeds. -/
inductive GreenApiPrecheck where
  | configError (msg : String)
  | request (url : String)
deriving DecidableEq

/-- The part of `green_api_request` that runs before any HTTP request is
issued (src/app.py lines 45-54): read the three config values, raise iff
instance id or token is falsy, then build the target URL. -/
def green_api_request_precheck (cfg : AppConfig) (endpoint : String) : GreenApiPrecheck :=
  if !pyTruthy cfg.GREEN_INSTANCE_ID || !pyTruthy cfg.GREEN_API_TOKEN then
    .configError "GREEN_INSTANCE_ID y GREEN_API_TOKEN deben estar configurados."
  else
    .request (pyFormat cfg.GREEN_API_URL ++ "/waInstance" ++ pyFormat cfg.GREEN_INSTANCE_ID
      ++ "/" ++ endpoint ++ "/" ++ pyFormat cfg.GREEN_API_TOKEN)

/-- The cause of a `RuntimeError` raised by `green_api_request`:
`http s` an `requests.HTTPError` whose response carries status `s`
(`none` when the exception has no response object), `net` a transport
failure (`requests.RequestException`). -/
inductive GError where
  | http (status : Option Nat)
  | net
deriving DecidableEq

/-- The 404 test of src/app.py lines 150-154: the cause is an
`HTTPError`, its response is present, and its status code is 404. -/
def is404 : GError → Bool
  | .http (some s) => s == 404
  | _ => false

/-- One queued notification as the drain loop reads it: `receiptId`
(`notification.get("receiptId")`) and the `body` section
(`notification.get("body", {})`, the default empty dict giving a body
with every field absent). -/
structure Notification where
  receiptId : Option String
  body : Body
deriving DecidableEq

/-- Result of one `GET receiveNotification` call: `ok none` a 2xx
response with a falsy (empty) JSON value, `ok (some n)` a 2xx response
with a notification, `err e` a raised `RuntimeError` with cause `e`. -/
inductive PullResult where
  | ok (n : Option Notification)
  | err (e : GError)
deriving DecidableEq

/-- Oracle for the HTTP calls the drain loop makes: `pull i` is the
outcome of the `receiveNotification` call of iteration `i` (0-based),
`ack i r` the outcome of `DELETE deleteNotification/{r}` in iteration
`i`. -/
structure Gateway where
  pull : Nat → PullResult
  ack : Nat → String → Except GError Unit

/-- One row committed by `db.session.add`/`commit` in the drain loop or
the webhook handler: the three fields the code sets (`id` and
`created_at` are store-assigned and modelled separately for the query). -/
structure StoredMessage where
  chat_id : String
  message : String
  direction : String
deriving DecidableEq

/-- The persist-or-discard step of one drain iteration (src/app.py lines
163-185): discard when `senderData.chatId` is falsy, else extract text,
discard when that is falsy, else build the row with the shared
direction classification.  `green_webhook` performs the same step with
identical fields (lines 247-258); both are proved equal below. -/
def drain_record (body : Body) : Option StoredMessage :=
  match body.senderChatId with
  | none => none
  | some c =>
    if c.isEmpty then none
    else
      match extract_message_text body with
      | none => none
      | some t =>
        if t.isEmpty then none
        else some ⟨c, t, determine_direction body⟩

/-- The record (if any) that the `green_webhook` handler commits
(src/app.py lines 245-258): read `chatId` and the extracted text, and
persist exactly when both are truthy. -/
def green_webhook_record (body : Body) : Option StoredMessage :=
  match body.senderChatId, extract_message_text body with
  | some c, some t =>
    if !c.isEmpty && !t.isEmpty then some ⟨c, t, determine_direction body⟩ else none
  | _, _ => none

deriving instance DecidableEq for Except

/-- Observable outcome of `sync_incoming_messages`: the rows committed
(in commit order), the number of `receiveNotification` calls made, the
receipt ids for which a `deleteNotification` call was attempted, and
either the returned count (`Except.ok`) or the propagated error. -/
structure DrainResult where
  store : List StoredMessage
  pulls : Nat
  ackAttempts : List String
  result : Except GError Nat
deriving DecidableEq

/-- Committed rows after one drain iteration processing notification
`n`: the persist-or-discard step appends the new row or leaves the list
unchanged. -/
def stepStore (store : List StoredMessage) (n : Notification) : List StoredMessage :=
  match drain_record n.body with
  | some rec => store ++ [rec]
  | none => store

/-- `processed` counter after one drain iteration processing `n`. -/
def stepProc (processed : Nat) (n : Notification) : Nat :=
  match drain_record n.body with
  | some _ => processed + 1
  | none => processed

/-- Acknowledgment attempts after one drain iteration processing `n`:
`deleteNotification` is attempted exactly when the receipt id is truthy,
whatever became of the persist step. -/
def stepAcks (acks : List String) (n : Notification) : List String :=
  match n.receiptId with
  | some r => if r.isEmpty then acks else acks ++ [r]
  | none => acks

/-- The `while iterations < max_pulls` loop of `sync_incoming_messages`
(src/app.py lines 144-193), with `fuel` the remaining iterations, `i`
the pulls already made, and the accumulated committed rows, processed
count and acknowledgment attempts.  A 404 pull breaks; any other pull
error propagates; an empty pull breaks; otherwise persist-or-discard,
then attempt acknowledgment when the receipt id is truthy, swallowing
its failure, and continue. -/
def drainAux (gw : Gateway) (fuel : Nat) (i : Nat) (store : List StoredMessage)
    (processed : Nat) (acks : List String) : DrainResult :=
  match fuel with
  | 0 => ⟨store, i, acks, .ok processed⟩
  | fuel' + 1 =>
    match gw.pull i with
    | .err e =>
      if is404 e then ⟨store, i + 1, acks, .ok processed⟩
      else ⟨store, i + 1, acks, .error e⟩
    | .ok none => ⟨store, i + 1, acks, .ok processed⟩
    | .ok (some n) =>
      match n.receiptId with
      | some r =>
        if r.isEmpty then
          drainAux gw fuel' (i + 1) (stepStore store n) (stepProc processed n) acks
        else
          match gw.ack i r with
          | .ok _ =>
            drainAux gw fuel' (i + 1) (stepStore store n) (stepProc processed n) (acks ++ [r])
          | .error _ =>
            drainAux gw fuel' (i + 1) (stepStore store n) (stepProc processed n) (acks ++ [r])
      | none => drainAux gw fuel' (i + 1) (stepStore store n) (stepProc processed n) acks

/-- `sync_incoming_messages` (src/app.py lines 139-193):
`max_pulls = max(GREEN_API_MAX_PULL, 1)` (the config value may be any
integer), then run the drain loop from an empty state. -/
def sync_incoming_messages (gw : Gateway) (maxPullCfg : Int) : DrainResult :=
  drainAux gw (max maxPullCfg 1).toNat 0 [] 0 []

/-- A `chat_messages` row as the dashboard query sees it: `id` the
autoincrement primary key (ascending in insertion order), `created_at`
the insertion timestamp (src/app.py lines 17-22), modelled as a `Nat`
tick. -/
structure ChatMessage where
  id : Nat
  chat_id : String
  message : String
  direction : String
  created_at : Nat
deriving DecidableEq

/-- Non-strict descending order on `created_at`: the only ordering the
`order_by(ChatMessage.created_at.desc())` clause constrains. -/
def sortedByCreatedAtDesc (l : List ChatMessage) : Prop :=
  l.Pairwise (fun a b => b.created_at ≤ a.created_at)

instance (l : List ChatMessage) : Decidable (sortedByCreatedAtDesc l) :=
  inferInstanceAs (Decidable
    (l.Pairwise (fun a b : ChatMessage => b.created_at ≤ a.created_at)))

/-- Contract of the dashboard query
`ChatMessage.query.order_by(ChatMessage.created_at.desc()).limit(L)`
(src/app.py lines 232-234, limit 50): the engine returns the first `L`
rows of some permutation of the table that is sorted by `created_at`
descending.  The query names no secondary sort key, so SQL leaves the
relative order of rows with equal `created_at` unspecified: any such
permutation is a valid result. -/
def recentMessagesSpec (limit : Nat) (rows result : List ChatMessage) : Prop :=
  ∃ sorted, sorted.Perm rows ∧ sortedByCreatedAtDesc sorted ∧ result = sorted.take limit

/-- The strict "more recent" order asserted by the claim: later
`created_at` first, ties broken by ascending id (insertion order). -/
def moreRecent (a b : ChatMessage) : Prop :=
  b.created_at < a.created_at ∨ (a.created_at = b.created_at ∧ a.id < b.id)

instance (a b : ChatMessage) : Decidable (moreRecent a b) :=
  inferInstanceAs (Decidable (b.created_at < a.created_at
    ∨ (a.created_at = b.created_at ∧ a.id < b.id)))

/-- Whether the gateway-client precheck raised the configuration error. -/
def isConfigError : GreenApiPrecheck → Bool
  | .configError _ => true
  | .request _ => false

/-! ### Concrete sample data

Sample notifications, gateways and tables used to instantiate the
theorems below on closed inputs. -/

/-- A plain text message section carrying `"hi"`. -/
def mdTextHi : MessageData :=
  ⟨some "textMessage", some "hi", none, none, none, none, "serialized-md"⟩

/-- A text message section whose `textMessage` field is the empty
string. -/
def mdTextEmpty : MessageData :=
  ⟨some "textMessage", some "", none, none, none, none, "serialized-empty"⟩

/-- An incoming text notification body with a chat id. -/
def bodyIncoming : Body :=
  ⟨some "incomingMessageReceived", some "34600000000@c.us", some mdTextHi, none⟩

/-- A body whose text field is empty (falls through to the summary). -/
def bodyTextEmpty : Body :=
  ⟨some "incomingMessageReceived", some "34600000000@c.us", some mdTextEmpty, none⟩

/-- A service event without a chat id (discarded by both paths). -/
def bodyNoChat : Body :=
  ⟨some "stateInstanceChanged", none, none, some "serialized-status"⟩

/-- The record the drain loop persists for `bodyIncoming`. -/
def recGood : StoredMessage := ⟨"34600000000@c.us", "hi", "incoming"⟩

/-- A well-formed queued notification with receipt id `"101"`. -/
def notifGood : Notification := ⟨some "101", bodyIncoming⟩

/-- A queued notification with receipt id `"202"` that is discarded
(no chat id). -/
def notifNoChat : Notification := ⟨some "202", bodyNoChat⟩

/-- An acknowledgment oracle that always succeeds. -/
def ackAlwaysOk : Nat → String → Except GError Unit := fun _ _ => .ok ()

/-- A gateway whose queue never empties and whose acks succeed. -/
def gwAlwaysFull : Gateway := ⟨fun _ => .ok (some notifGood), ackAlwaysOk⟩

/-- A gateway serving two notifications and then a 404. -/
def gw404AfterTwo : Gateway :=
  ⟨fun i => if i < 2 then .ok (some notifGood) else .err (.http (some 404)), ackAlwaysOk⟩

/-- A gateway whose queue never empties and whose acks always fail with
a network error. -/
def gwAckFail : Gateway := ⟨fun _ => .ok (some notifGood), fun _ _ => .error .net⟩

/-- A gateway that keeps serving the discarded notification. -/
def gwDiscard : Gateway := ⟨fun _ => .ok (some notifNoChat), ackAlwaysOk⟩

/-- A configuration with instance id and token set but no base URL. -/
def cfgNoUrl : AppConfig := ⟨some "7107349111", some "tok", none⟩

/-- A 701-character serialization, long enough to be truncated. -/
def longSerialized : String := String.mk (List.replicate 701 'a')

/-- A two-row table whose rows tie on `created_at`. -/
def rowsTiePair : List ChatMessage :=
  [⟨1, "a@c.us", "m1", "incoming", 10⟩, ⟨2, "b@c.us", "m2", "outgoing", 10⟩]

/-- A valid result of the recent-messages query on `rowsTiePair`: both
rows, with the tie in descending-id order. -/
def resultTieDesc : List ChatMessage :=
  [⟨2, "b@c.us", "m2", "outgoing", 10⟩, ⟨1, "a@c.us", "m1", "incoming", 10⟩]

/-- Three rows, already in `created_at`-descending order, with a tie
between ids 1 and 2. -/
def rowsTiedSorted : List ChatMessage :=
  [⟨1, "a@c.us", "m1", "incoming", 10⟩, ⟨2, "b@c.us", "m2", "outgoing", 10⟩,
   ⟨3, "c@c.us", "m3", "service", 5⟩]

/-- A valid result of the recent-messages query on `rowsTiedSorted` with
limit 2. -/
def recentTiedSorted : List ChatMessage :=
  [⟨1, "a@c.us", "m1", "incoming", 10⟩, ⟨2, "b@c.us", "m2", "outgoing", 10⟩]

/-! ### Helper lemmas about the drain loop -/

theorem drainAux_zero (gw : Gateway) (i : Nat) (s : List StoredMessage) (p : Nat)
    (a : List String) : drainAux gw 0 i s p a = ⟨s, i, a, .ok p⟩ := rfl

theorem drainAux_succ_err (gw : Gateway) {e : GError} (f i : Nat) (s : List StoredMessage)
    (p : Nat) (a : List String) (hp : gw.pull i = .err e) :
    drainAux gw (f + 1) i s p a =
      if is404 e then ⟨s, i + 1, a, .ok p⟩ else ⟨s, i + 1, a, .error e⟩ := by
  simp only [drainAux, hp]

theorem drainAux_succ_empty (gw : Gateway) (f i : Nat) (s : List StoredMessage)
    (p : Nat) (a : List String) (hp : gw.pull i = .ok none) :
    drainAux gw (f + 1) i s p a = ⟨s, i + 1, a, .ok p⟩ := by
  simp only [drainAux, hp]

theorem drainAux_succ_some (gw : Gateway) {n : Notification} (f i : Nat)
    (s : List StoredMessage) (p : Nat) (a : List String)
    (hp : gw.pull i = .ok (some n)) :
    drainAux gw (f + 1) i s p a =
      drainAux gw f (i + 1) (stepStore s n) (stepProc p n) (stepAcks a n) := by
  simp only [drainAux, hp]
  cases hr : n.receiptId with
  | none => simp [stepAcks, hr]
  | some r =>
    by_cases hre : r.isEmpty
    · simp [stepAcks, hr, hre]
    · cases hack : gw.ack i r <;> simp [stepAcks, hr, hre, hack]

theorem drainAux_ack_irrel (pull : Nat → PullResult)
    (ack₁ ack₂ : Nat → String → Except GError Unit) :
    ∀ (fuel i : Nat) (s : List StoredMessage) (p : Nat) (a : List String),
      drainAux ⟨pull, ack₁⟩ fuel i s p a = drainAux ⟨pull, ack₂⟩ fuel i s p a := by
  intro fuel
  induction fuel with
  | zero => intro i s p a; rfl
  | succ f ih =>
    intro i s p a
    cases hp : pull i with
    | err e =>
      rw [drainAux_succ_err ⟨pull, ack₁⟩ f i s p a hp,
        drainAux_succ_err ⟨pull, ack₂⟩ f i s p a hp]
    | ok nOpt =>
      cases nOpt with
      | none =>
        rw [drainAux_succ_empty ⟨pull, ack₁⟩ f i s p a hp,
          drainAux_succ_empty ⟨pull, ack₂⟩ f i s p a hp]
      | some n =>
        rw [drainAux_succ_some ⟨pull, ack₁⟩ f i s p a hp,
          drainAux_succ_some ⟨pull, ack₂⟩ f i s p a hp]
        exact ih ..

theorem stepStore_suffix (s : List StoredMessage) (p : Nat) (n : Notification) :
    ∃ d0, stepStore s n = s ++ d0 ∧ stepProc p n = p + d0.length := by
  cases hdr : drain_record n.body with
  | some rec => exact ⟨[rec], by simp [stepStore, hdr], by simp [stepProc, hdr]⟩
  | none => exact ⟨[], by simp [stepStore, hdr], by simp [stepProc, hdr]⟩

theorem drainAux_store_suffix (gw : Gateway) :
    ∀ (fuel i : Nat) (s : List StoredMessage) (p : Nat) (a : List String),
      ∃ ds, (drainAux gw fuel i s p a).store = s ++ ds
        ∧ (∀ m, (drainAux gw fuel i s p a).result = .ok m → m = p + ds.length) := by
  intro fuel
  induction fuel with
  | zero =>
    intro i s p a
    refine ⟨[], by simp [drainAux_zero], fun m hm => ?_⟩
    rw [drainAux_zero] at hm
    simp at hm
    simp [hm]
  | succ f ih =>
    intro i s p a
    cases hp : gw.pull i with
    | err e =>
      rw [drainAux_succ_err gw f i s p a hp]
      by_cases h4 : is404 e
      · refine ⟨[], by simp [h4], fun m hm => ?_⟩
        simp [h4] at hm
        simp [hm]
      · exact ⟨[], by simp [h4], fun m hm => by simp [h4] at hm⟩
    | ok nOpt =>
      cases nOpt with
      | none =>
        rw [drainAux_succ_empty gw f i s p a hp]
        refine ⟨[], by simp, fun m hm => ?_⟩
        simp at hm
        simp [hm]
      | some n =>
        rw [drainAux_succ_some gw f i s p a hp]
        obtain ⟨d0, hs0, hp0⟩ := stepStore_suffix s p n
        obtain ⟨ds, hds, hm⟩ := ih (i + 1) (stepStore s n) (stepProc p n) (stepAcks a n)
        refine ⟨d0 ++ ds, ?_, ?_⟩
        · rw [hds, hs0, List.append_assoc]
        · intro m hm'
          have := hm m hm'
          rw [hp0] at this
          simp [this, List.length_append]
          omega

theorem drainAux_store_mono (gw : Gateway) (m : StoredMessage)
    (fuel i : Nat) (s : List StoredMessage) (p : Nat) (a : List String)
    (hm : m ∈ s) : m ∈ (drainAux gw fuel i s p a).store := by
  obtain ⟨ds, hds, _⟩ := drainAux_store_suffix gw fuel i s p a
  rw [hds]
  exact List.mem_append_left _ hm

theorem stepAcks_mono (a : List String) (n : Notification) (r : String) (hr : r ∈ a) :
    r ∈ stepAcks a n := by
  unfold stepAcks
  cases n.receiptId with
  | none => exact hr
  | some r' =>
    by_cases hre : r'.isEmpty <;> simp [hre, hr]

theorem drainAux_acks_mono (gw : Gateway) (r : String) :
    ∀ (fuel i : Nat) (s : List StoredMessage) (p : Nat) (a : List String),
      r ∈ a → r ∈ (drainAux gw fuel i s p a).ackAttempts := by
  intro fuel
  induction fuel with
  | zero => intro i s p a hm; simpa [drainAux_zero] using hm
  | succ f ih =>
    intro i s p a hm
    cases hp : gw.pull i with
    | err e =>
      rw [drainAux_succ_err gw f i s p a hp]
      by_cases h4 : is404 e <;> simp [h4, hm]
    | ok nOpt =>
      cases nOpt with
      | none =>
        rw [drainAux_succ_empty gw f i s p a hp]
        simpa using hm
      | some n =>
        rw [drainAux_succ_some gw f i s p a hp]
        exact ih (i + 1) (stepStore s n) (stepProc p n) (stepAcks a n)
          (stepAcks_mono a n r hm)

theorem drainAux_all_ok_pulls (gw : Gateway)
    (hok : ∀ j, ∃ n, gw.pull j = .ok (some n)) :
    ∀ (fuel i : Nat) (s : List StoredMessage) (p : Nat) (a : List String),
      (drainAux gw fuel i s p a).pulls = i + fuel := by
  intro fuel
  induction fuel with
  | zero => intro i s p a; simp [drainAux_zero]
  | succ f ih =>
    intro i s p a
    obtain ⟨n, hp⟩ := hok i
    rw [drainAux_succ_some gw f i s p a hp, ih]
    omega

theorem drainAux_err_at (gw : Gateway) (e : GError) :
    ∀ (d fuel i : Nat) (s : List StoredMessage) (p : Nat) (a : List String),
      d < fuel → (∀ j, j < d → ∃ n, gw.pull (i + j) = .ok (some n)) →
      gw.pull (i + d) = .err e →
      (drainAux gw fuel i s p a).pulls = i + d + 1
      ∧ (is404 e = true → ∃ m, (drainAux gw fuel i s p a).result = .ok m)
      ∧ (is404 e = false → (drainAux gw fuel i s p a).result = .error e) := by
  intro d
  induction d with
  | zero =>
    intro fuel i s p a hd _hok herr
    obtain ⟨f, rfl⟩ : ∃ f, fuel = f + 1 := ⟨fuel - 1, by omega⟩
    simp only [Nat.add_zero] at herr
    rw [drainAux_succ_err gw f i s p a herr]
    by_cases h4 : is404 e <;> simp [h4]
  | succ d ih =>
    intro fuel i s p a hd hok herr
    obtain ⟨f, rfl⟩ : ∃ f, fuel = f + 1 := ⟨fuel - 1, by omega⟩
    obtain ⟨n, hp⟩ := hok 0 (by omega)
    simp only [Nat.add_zero] at hp
    have hok' : ∀ j, j < d → ∃ n, gw.pull (i + 1 + j) = .ok (some n) := by
      intro j hj
      obtain ⟨n', hn'⟩ := hok (j + 1) (by omega)
      exact ⟨n', by rw [show i + 1 + j = i + (j + 1) by omega]; exact hn'⟩
    have herr' : gw.pull (i + 1 + d) = .err e := by
      rw [show i + 1 + d = i + (d + 1) by omega]; exact herr
    rw [drainAux_succ_some gw f i s p a hp]
    obtain ⟨h1, h2, h3⟩ := ih f (i + 1) (stepStore s n) (stepProc p n) (stepAcks a n)
      (by omega) hok' herr'
    exact ⟨by omega, h2, h3⟩


/-! ### Claims -/

/-- C1: for every configuration with maximum pull count `N ≥ 1` and
every gateway whose `receiveNotification` pull always succeeds with a
non-empty notification, `sync_incoming_messages` performs exactly `N`
pull attempts (never `N + 1`) and returns. -/
theorem claim_C1 (gw : Gateway) (N : Int) (hN : 1 ≤ N)
    (hok : ∀ j, ∃ n, gw.pull j = .ok (some n)) :
    (sync_incoming_messages gw N).pulls = N.toNat := by
  unfold sync_incoming_messages
  rw [max_eq_left hN]
  have := drainAux_all_ok_pulls gw hok N.toNat 0 [] 0 []
  simpa using this

theorem claim_C1_witness : (sync_incoming_messages gwAlwaysFull 3).pulls = (3 : Int).toNat :=
  claim_C1 gwAlwaysFull 3 (by decide) (fun j => ⟨notifGood, rfl⟩)

/-- C2: if the first `k - 1` pulls succeed with non-empty notifications
and the `k`-th pull (`1 ≤ k ≤ N`) raises, then the loop stops after
exactly `k` pull attempts; a 404 terminates successfully returning the
number of records persisted in the first `k - 1` iterations, while any
non-404 failure is propagated. -/
theorem claim_C2 (gw : Gateway) (N : Int) (k : Nat) (e : GError)
    (hk1 : 1 ≤ k) (hkN : (k : Int) ≤ N)
    (hok : ∀ j, j + 1 < k → ∃ n, gw.pull j = .ok (some n))
    (herr : gw.pull (k - 1) = .err e) :
    (sync_incoming_messages gw N).pulls = k
    ∧ (is404 e = true →
        (sync_incoming_messages gw N).result
          = .ok ((sync_incoming_messages gw N).store.length))
    ∧ (is404 e = false → (sync_incoming_messages gw N).result = .error e) := by
  have hN : (1 : Int) ≤ N := le_trans (by exact_mod_cast hk1) hkN
  unfold sync_incoming_messages
  rw [max_eq_left hN]
  have hfuel : k ≤ N.toNat := by
    have h := Int.toNat_le_toNat hkN
    simpa using h
  have hok' : ∀ j, j < k - 1 → ∃ n, gw.pull (0 + j) = .ok (some n) := by
    intro j hj
    simpa using hok j (by omega)
  have herr' : gw.pull (0 + (k - 1)) = .err e := by simpa using herr
  obtain ⟨h1, h2, h3⟩ :=
    drainAux_err_at gw e (k - 1) N.toNat 0 [] 0 [] (by omega) hok' herr'
  refine ⟨by omega, ?_, h3⟩
  intro h4
  obtain ⟨m, hm⟩ := h2 h4
  obtain ⟨ds, hds, hcnt⟩ := drainAux_store_suffix gw N.toNat 0 [] 0 []
  have hmc := hcnt m hm
  rw [hm, hds]
  simp only [List.nil_append]
  simp [hmc]

theorem claim_C2_witness :
    (sync_incoming_messages gw404AfterTwo 5).pulls = 3
    ∧ (is404 (.http (some 404)) = true →
        (sync_incoming_messages gw404AfterTwo 5).result
          = .ok ((sync_incoming_messages gw404AfterTwo 5).store.length))
    ∧ (is404 (.http (some 404)) = false →
        (sync_incoming_messages gw404AfterTwo 5).result = .error (.http (some 404))) :=
  claim_C2 gw404AfterTwo 5 3 (.http (some 404)) (by decide) (by decide)
    (fun j hj => ⟨notifGood, by simp [gw404AfterTwo, show j < 2 by omega]⟩)
    (by decide)

/-- C3 counterexample: with instance id and token configured but the
base URL absent, `green_api_request` does not fail with the
configuration error — it proceeds to the network call with `"None"`
interpolated into the URL. -/
theorem claim_C3_counterexample :
    cfgNoUrl.GREEN_API_URL = none
    ∧ isConfigError (green_api_request_precheck cfgNoUrl "receiveNotification") = false
    ∧ green_api_request_precheck cfgNoUrl "receiveNotification"
        = .request "None/waInstance7107349111/receiveNotification/tok" :=
  ⟨rfl, rfl, by decide⟩

/-- C3 (amended): the gateway client call fails immediately with the
configuration error iff the configured instance identifier or access
token is absent or empty; the base URL is never checked, and whenever
both checked values are present the call proceeds to the network with
the URL built from all three (an absent base URL rendered as
`"None"`). -/
theorem claim_C3_amended (cfg : AppConfig) (endpoint : String) :
    (green_api_request_precheck cfg endpoint
        = .configError "GREEN_INSTANCE_ID y GREEN_API_TOKEN deben estar configurados."
      ↔ (pyTruthy cfg.GREEN_INSTANCE_ID = false ∨ pyTruthy cfg.GREEN_API_TOKEN = false))
    ∧ (pyTruthy cfg.GREEN_INSTANCE_ID = true → pyTruthy cfg.GREEN_API_TOKEN = true →
      green_api_request_precheck cfg endpoint
        = .request (pyFormat cfg.GREEN_API_URL ++ "/waInstance"
            ++ pyFormat cfg.GREEN_INSTANCE_ID ++ "/" ++ endpoint ++ "/"
            ++ pyFormat cfg.GREEN_API_TOKEN)) := by
  unfold green_api_request_precheck
  by_cases h1 : pyTruthy cfg.GREEN_INSTANCE_ID
    <;> by_cases h2 : pyTruthy cfg.GREEN_API_TOKEN
    <;> simp [h1, h2]

theorem claim_C3_amended_witness :
    (green_api_request_precheck ⟨some "id", none, some "u"⟩ "sendMessage"
        = .configError "GREEN_INSTANCE_ID y GREEN_API_TOKEN deben estar configurados."
      ↔ (pyTruthy (some "id") = false ∨ pyTruthy (none : Option String) = false))
    ∧ (pyTruthy (some "id") = true → pyTruthy (none : Option String) = true →
      green_api_request_precheck ⟨some "id", none, some "u"⟩ "sendMessage"
        = .request (pyFormat (some "u") ++ "/waInstance" ++ pyFormat (some "id")
            ++ "/" ++ "sendMessage" ++ "/" ++ pyFormat (none : Option String))) :=
  claim_C3_amended ⟨some "id", none, some "u"⟩ "sendMessage"

/-- C4: `determine_direction` returns `"incoming"` iff the webhook tag
is `incomingMessageReceived`, `"outgoing"` iff it is one of the two
outgoing tags, and `"service"` in every other case (including a missing
tag); it never produces a fourth value. -/
theorem claim_C4 (body : Body) :
    (determine_direction body = "incoming"
      ↔ body.typeWebhook = some "incomingMessageReceived")
    ∧ (determine_direction body = "outgoing"
      ↔ (body.typeWebhook = some "outgoingMessageReceived"
        ∨ body.typeWebhook = some "outgoingAPIMessageReceived"))
    ∧ (determine_direction body = "incoming" ∨ determine_direction body = "outgoing"
      ∨ determine_direction body = "service") := by
  unfold determine_direction
  by_cases h1 : body.typeWebhook = some "incomingMessageReceived"
  · simp [h1]
  · by_cases h2 : body.typeWebhook = some "outgoingMessageReceived"
      ∨ body.typeWebhook = some "outgoingAPIMessageReceived"
    · rcases h2 with h2 | h2 <;> simp [h1, h2]
    · simp [h1, h2]

/-- C5: the serialized-payload part of a summary is exactly the first
700 characters followed by the literal `"..."` when the serialization
is longer than 700 characters, and the unchanged serialization (no
suffix) when its length is at most 700. -/
theorem claim_C5 (serialized type_hint : String) :
    (700 < serialized.length →
      summarize_payload serialized type_hint
        = "[" ++ type_hint ++ "] " ++ (serialized.take 700 ++ "..."))
    ∧ (serialized.length ≤ 700 →
      summarize_payload serialized type_hint = "[" ++ type_hint ++ "] " ++ serialized) := by
  unfold summarize_payload
  constructor
  · intro h; rw [if_pos h]
  · intro h; rw [if_neg (by omega)]

set_option maxRecDepth 8192 in
theorem claim_C5_witness :
    summarize_payload longSerialized "evento"
      = "[" ++ "evento" ++ "] " ++ (longSerialized.take 700 ++ "...")
    ∧ summarize_payload "hola" "status" = "[" ++ "status" ++ "] " ++ "hola" :=
  ⟨(claim_C5 longSerialized "evento").1 (by decide),
   (claim_C5 "hola" "status").2 (by decide)⟩

/-- C6: when a drain iteration persisted a record and the subsequent
`deleteNotification` for its receipt id fails, the record is in the
final store (the commit precedes the acknowledgment attempt), and the
whole drain outcome is identical to that under any other acknowledgment
behavior — the failure is swallowed and the loop moves on to the next
pull iteration. -/
theorem claim_C6 (gw : Gateway) (fuel i : Nat) (s : List StoredMessage) (p : Nat)
    (a : List String) (n : Notification) (rec : StoredMessage) (r : String) (e : GError)
    (ack₂ : Nat → String → Except GError Unit)
    (hpull : gw.pull i = .ok (some n)) (_hrec : n.receiptId = some r)
    (_hre : r.isEmpty = false) (hpersist : drain_record n.body = some rec)
    (_hack : gw.ack i r = .error e) :
    rec ∈ (drainAux gw (fuel + 1) i s p a).store
    ∧ drainAux ⟨gw.pull, ack₂⟩ (fuel + 1) i s p a = drainAux gw (fuel + 1) i s p a := by
  constructor
  · rw [drainAux_succ_some gw fuel i s p a hpull]
    apply drainAux_store_mono
    simp [stepStore, hpersist]
  · obtain ⟨pull, ack⟩ := gw
    exact drainAux_ack_irrel pull ack₂ ack (fuel + 1) i s p a

theorem claim_C6_witness :
    recGood ∈ (drainAux gwAckFail (2 + 1) 0 [] 0 []).store
    ∧ drainAux ⟨gwAckFail.pull, ackAlwaysOk⟩ (2 + 1) 0 [] 0 []
        = drainAux gwAckFail (2 + 1) 0 [] 0 [] :=
  claim_C6 gwAckFail 2 0 [] 0 [] notifGood recGood "101" .net ackAlwaysOk
    rfl rfl rfl (by decide) rfl

/-- C9: a pulled notification carrying a truthy receipt id is
acknowledged (its `deleteNotification` call is attempted) even when it
is discarded without persisting a record. -/
theorem claim_C9 (gw : Gateway) (fuel i : Nat) (s : List StoredMessage) (p : Nat)
    (a : List String) (n : Notification) (r : String)
    (hpull : gw.pull i = .ok (some n)) (hrec : n.receiptId = some r)
    (hre : r.isEmpty = false) (_hdisc : drain_record n.body = none) :
    r ∈ (drainAux gw (fuel + 1) i s p a).ackAttempts := by
  rw [drainAux_succ_some gw fuel i s p a hpull]
  apply drainAux_acks_mono
  simp [stepAcks, hrec, hre]

theorem claim_C9_witness : "202" ∈ (drainAux gwDiscard (0 + 1) 0 [] 0 []).ackAttempts :=
  claim_C9 gwDiscard 0 0 [] 0 [] notifNoChat "202" rfl rfl rfl (by decide)

/-- C8: the webhook path and the drain (polling) path persist exactly
the same record for every notification body: same acceptance condition,
same chat id, same text and same direction classification. -/
theorem claim_C8 (body : Body) : green_webhook_record body = drain_record body := by
  unfold green_webhook_record drain_record
  cases hc : body.senderChatId with
  | none => simp
  | some c =>
    cases ht : extract_message_text body with
    | none => by_cases hce : c.isEmpty <;> simp [hce]
    | some t =>
      by_cases hce : c.isEmpty <;> by_cases hte : t.isEmpty <;> simp [hce, hte]

/-- C10: a non-empty message section tagged `textMessage` whose
`textMessage` field is absent or empty does not yield "absent":
extraction falls through to the bracketed summary of the message
section, tagged `textMessage`. -/
theorem claim_C10 (body : Body) (md : MessageData)
    (hmd : body.messageData = some md) (hty : md.typeMessage = some "textMessage")
    (htext : md.textMessage = none ∨ md.textMessage = some "") :
    extract_message_text body = some (summarize_payload md.serialized "textMessage") := by
  have hfall : pyTruthyText md.textMessage = none := by
    rcases htext with h | h
    · simp [pyTruthyText, h]
    · simp only [pyTruthyText, h]
      rw [if_pos (by decide)]
  simp only [extract_message_text, hmd, hty, hfall, fallbackSummary, if_pos]
  rfl

theorem claim_C10_witness :
    extract_message_text bodyTextEmpty
      = some (summarize_payload mdTextEmpty.serialized "textMessage") :=
  claim_C10 bodyTextEmpty mdTextEmpty rfl rfl (Or.inr rfl)

/-- C7 counterexample: the query contract admits a result that orders
a `created_at` tie by descending id — with rows 1 and 2 tied, the list
`[row 2, row 1]` is a valid result of the query on `rowsTiePair` with
limit 2, yet it is not ordered by the claimed insertion-order
tie-break. -/
theorem claim_C7_counterexample :
    recentMessagesSpec 2 rowsTiePair resultTieDesc
    ∧ ¬ resultTieDesc.Pairwise moreRecent := by
  constructor
  · refine ⟨resultTieDesc, ?_, by decide, rfl⟩
    unfold resultTieDesc rowsTiePair
    exact List.Perm.swap _ _ []
  · decide

/-- C7 (amended): every valid result of the recent-messages query is
ordered by `created_at` descending, contains `min L (row count)`
records, and consists of most-recent rows (every omitted row's
`created_at` is at most every returned row's); the query names no
secondary sort key, so the order among records with equal `created_at`
is unspecified. -/
theorem claim_C7_amended (rows result : List ChatMessage) (L : Nat)
    (h : recentMessagesSpec L rows result) :
    sortedByCreatedAtDesc result
    ∧ result.length = min L rows.length
    ∧ ∃ rest, (result ++ rest).Perm rows
        ∧ ∀ x ∈ result, ∀ y ∈ rest, y.created_at ≤ x.created_at := by
  obtain ⟨sorted, hperm, hsorted, hres⟩ := h
  subst hres
  refine ⟨?_, ?_, sorted.drop L, ?_, ?_⟩
  · exact List.Pairwise.sublist (List.take_sublist L sorted) hsorted
  · rw [List.length_take, hperm.length_eq]
  · rw [List.take_append_drop]
    exact hperm
  · intro x hx y hy
    have hsplit : List.Pairwise (fun a b => b.created_at ≤ a.created_at)
        (sorted.take L ++ sorted.drop L) := by
      rw [List.take_append_drop]
      exact hsorted
    exact (List.pairwise_append.mp hsplit).2.2 x hx y hy

theorem claim_C7_amended_witness :
    sortedByCreatedAtDesc recentTiedSorted
    ∧ recentTiedSorted.length = min 2 rowsTiedSorted.length
    ∧ ∃ rest, (recentTiedSorted ++ rest).Perm rowsTiedSorted
        ∧ ∀ x ∈ recentTiedSorted, ∀ y ∈ rest, y.created_at ≤ x.created_at :=
  claim_C7_amended rowsTiedSorted recentTiedSorted 2
    ⟨rowsTiedSorted, List.Perm.refl rowsTiedSorted, by decide, rfl⟩
